import Mathlib

/-!
Verification of `packages/skin-database/api/app.ts` (webamp skin-database API
front door).  The file embeds the pipeline-assembly module shallowly:

* `ApiAction` is the domain-event tagged union (`app.ts` lines 11-14).
* The CORS origin gate (`allowList` / `corsOptions.origin`, lines 101-117) is
  embedded with a faithful model of the three JavaScript regular expressions,
  including the fact that `RegExp.prototype.test` performs an unanchored
  search and that the unescaped `.` in `/netlify.app/` matches any
  non-line-terminator character.
* `getSitemapUrls` (lines 95-99) is embedded with the external data fetch
  (`Skins.getAllClassicSkins`) supplied as a parameter.
* The notify / logger middlewares (lines 44-59), the per-request context
  middleware (lines 37-41), the upload limits (line 72), the terminal
  `onError` handler (lines 87-90) and the overall stage order of `createApp`
  (lines 30-93) are embedded directly.
-/

namespace Webamp

/-- Domain-event tagged union `ApiAction` from `app.ts` lines 11-14. -/
inductive ApiAction
  | reviewRequested (md5 : String)
  | skinUploaded (md5 : String)
  | errorProcessingUpload (id msg : String)
deriving DecidableEq

/-! ## Regular-expression model for the CORS allow list

The allow list in `app.ts` lines 101-105 holds three JavaScript regexes:
`/https:\/\/skins\.webamp\.org/`, `/http:\/\/localhost:3000/` and
`/netlify.app/`.  The first two consist solely of literal characters (the
dots are escaped); the third contains one unescaped `.`, which in a
non-`dotAll` JavaScript regex matches any character except the four line
terminators.  `RegExp.prototype.test` searches for the pattern anywhere in
the subject string (no anchoring). -/

/-- One character position of a regex pattern: a literal character or the
JavaScript `.` wildcard. -/
inductive PatChar
  | lit (c : Char)
  | anyChar
deriving DecidableEq

/-- Whether the JavaScript non-`dotAll` `.` wildcard matches a character:
every character except the four line terminators. -/
def jsDotMatches (c : Char) : Bool :=
  !(c == '\n' || c == '\r' || c == '\u2028' || c == '\u2029')

/-- Does the pattern match a prefix of the character list? -/
def patMatchesHead : List PatChar → List Char → Bool
  | [], _ => true
  | _ :: _, [] => false
  | PatChar.lit a :: ps, c :: cs => a == c && patMatchesHead ps cs
  | PatChar.anyChar :: ps, c :: cs => jsDotMatches c && patMatchesHead ps cs

/-- Unanchored search, the semantics of `RegExp.prototype.test`: does the
pattern match starting at some position of the character list? -/
def patSearch (p : List PatChar) : List Char → Bool
  | [] => patMatchesHead p []
  | c :: cs => patMatchesHead p (c :: cs) || patSearch p cs

/-- Anchored (whole-string) matching.  Modelled from the spec: §4.1 says a
rule must match "the full origin string"; the source's `regex.test` does not
do this, so this definition exists only to compare the spec's wording with
the source behaviour. -/
def patMatchesExact : List PatChar → List Char → Bool
  | [], [] => true
  | [], _ :: _ => false
  | _ :: _, [] => false
  | PatChar.lit a :: ps, c :: cs => a == c && patMatchesExact ps cs
  | PatChar.anyChar :: ps, c :: cs => jsDotMatches c && patMatchesExact ps cs

/-- A pattern consisting only of the literal characters of `s`. -/
def litPat (s : String) : List PatChar := s.data.map PatChar.lit

/-- `regex.test(origin)` for a pattern: unanchored search over the string's
characters. -/
def regexTest (p : List PatChar) (s : String) : Bool := patSearch p s.data

/-- Substring containment, expressed as an unanchored search for a literal
pattern. -/
def containsSub (needle haystack : String) : Bool :=
  patSearch (litPat needle) haystack.data

/-- The configured allow list (`app.ts` lines 101-105): the three regexes,
with the escaped dots of the first pattern as literals and the unescaped dot
of `/netlify.app/` as the wildcard. -/
def allowList : List (List PatChar) :=
  [litPat "https://skins.webamp.org",
   litPat "http://localhost:3000",
   litPat "netlify" ++ [PatChar.anyChar] ++ litPat "app"]

/-- Outcome of the `corsOptions.origin` callback: `callback(null, true)` is
`allow`, `callback(new Error(...))` is `deny` carrying the error message. -/
inductive CorsDecision
  | allow
  | deny (reason : String)
deriving DecidableEq

/-- The denial message built at `app.ts` line 113. -/
def denyReason (origin : String) : String :=
  "Request from origin \"" ++ origin ++ "\" not allowed by CORS."

/-- The `corsOptions.origin` callback (`app.ts` lines 108-116),
parameterized by the rule list it consults.  `origin` is `none` when the
request carries no `Origin` header (the `cors` middleware passes
`undefined`).  The JavaScript guard `!origin` is truthy both for `undefined`
and for the empty string, so a present-but-empty origin is also allowed. -/
def corsOriginGateWith (rules : List (List PatChar)) : Option String → CorsDecision
  | none => CorsDecision.allow
  | some origin =>
    if origin == "" || rules.any (fun p => regexTest p origin) then
      CorsDecision.allow
    else
      CorsDecision.deny (denyReason origin)

/-- The origin gate as configured in the source: the callback closed over the
module-level `allowList`. -/
def corsOriginGate : Option String → CorsDecision :=
  corsOriginGateWith allowList

/-! ### Helper lemmas about pattern search -/

theorem patMatchesHead_lit_append (xs ys : List Char) :
    patMatchesHead (xs.map PatChar.lit) (xs ++ ys) = true := by
  induction xs with
  | nil => rfl
  | cons c cs ih => simp [patMatchesHead, ih]

theorem patSearch_of_head (p : List PatChar) (hay : List Char)
    (h : patMatchesHead p hay = true) : patSearch p hay = true := by
  cases hay with
  | nil => exact h
  | cons c cs => simp [patSearch, h]

theorem patSearch_cons (p : List PatChar) (c : Char) (hay : List Char)
    (h : patSearch p hay = true) : patSearch p (c :: hay) = true := by
  simp [patSearch, h]

theorem patSearch_append_left (p : List PatChar) (pre hay : List Char)
    (h : patSearch p hay = true) : patSearch p (pre ++ hay) = true := by
  induction pre with
  | nil => exact h
  | cons c cs ih => exact patSearch_cons p c (cs ++ hay) ih

/-- The denial reason contains the rejected origin verbatim. -/
theorem denyReason_contains (origin : String) :
    containsSub origin (denyReason origin) = true := by
  have hdata : (denyReason origin).data =
      ("Request from origin \"").data ++
        (origin.data ++ ("\" not allowed by CORS.").data) := by
    simp [denyReason, String.data_append]
  unfold containsSub
  rw [hdata]
  exact patSearch_append_left _ _ _
    (patSearch_of_head _ _ (patMatchesHead_lit_append origin.data _))

/-! ## Per-request scope: context, notify, loggers

`createApp` installs three middlewares that populate the request object:
lines 37-41 set `req.ctx = new UserContext()`, lines 44-51 set `req.notify`,
lines 54-59 set `req.log` / `req.logError`.  `UserContext` instances are
opaque here; we model instance identity by an allocation number, with
`new UserContext()` drawing a fresh number. -/

/-- The request-scoped fields populated by the middlewares.  `ctx` is the
`UserContext` allocated at line 38; `notifyCtx` is the context the `notify`
closure reads via `req.ctx` when invoked; `downstreamCtx` is the context a
route handler reads via `req.ctx`.  All three read the same mutable field,
which nothing reassigns after line 38. -/
structure RequestScope where
  ctx : Nat
  notifyCtx : Nat
  downstreamCtx : Nat
deriving DecidableEq

/-- Running the context middleware (lines 37-41) for one request with a fresh
allocation number: a single `UserContext` is created and every later reader
of `req.ctx` sees it. -/
def buildRequestScope (fresh : Nat) : RequestScope :=
  { ctx := fresh, notifyCtx := fresh, downstreamCtx := fresh }

/-- Contexts assigned to a run of `n` requests, each `new UserContext()`
drawing the next fresh allocation number. -/
def assignContexts (firstFresh n : Nat) : List RequestScope :=
  (List.range n).map (fun i => buildRequestScope (firstFresh + i))

/-- The calls `req.notify(action)` makes to the configured event handler
(lines 44-51), as a trace of `(event, context)` invocations:
`if (eventHandler) { eventHandler(action, req.ctx); }`.  With no handler
configured the body does nothing. -/
def notifyCalls (eventHandlerConfigured : Bool) (scope : RequestScope)
    (action : ApiAction) : List (ApiAction × Nat) :=
  if eventHandlerConfigured then [(action, scope.notifyCtx)] else []

/-- Request metadata captured by the logger middleware: `req.url`,
`req.params`, `req.query` (line 55), with params and query as key-value
lists. -/
structure RequestMeta where
  url : String
  params : List (String × String)
  query : List (String × String)
deriving DecidableEq

/-- Console sink level: `console.log` is `info`, `console.error` is
`error`. -/
inductive LogLevel
  | info
  | error
deriving DecidableEq

/-- One emission to the process-level console sink: `(message, context)` at
some level. -/
structure LogEntry where
  level : LogLevel
  message : String
  meta : RequestMeta
deriving DecidableEq

/-- The pair of functions the logger middleware attaches (lines 54-59).  The
middleware evaluates `const context = \x7b url: req.url, params: req.params,
query: req.query \x7d` once, when the middleware runs, and both closures
capture that `context` value. -/
structure RequestLoggers where
  log : String → LogEntry
  logError : String → LogEntry

/-- Attaching the loggers to a request whose metadata, at the moment the
middleware runs, is `metaAtAttach`. -/
def attachLogger (metaAtAttach : RequestMeta) : RequestLoggers :=
  { log := fun message =>
      { level := LogLevel.info, message := message, meta := metaAtAttach },
    logError := fun message =>
      { level := LogLevel.error, message := message, meta := metaAtAttach } }

/-- The metadata actually emitted by a `req.log` call, given the request's
metadata when the middleware ran (`metaAtAttach`) and the request's metadata
at the moment of the call (`metaAtCall`).  The two can differ: the logger
middleware runs before route dispatch, and Express populates `req.params`
(and rewrites `req.url`) during routing.  The closure built at line 56 uses
only the captured attach-time value; the call-time metadata does not enter
the emission. -/
def loggerObservedMeta (metaAtAttach metaAtCall : RequestMeta)
    (msg : String) : RequestMeta :=
  ((attachLogger metaAtAttach).log msg).meta

/-! ## Sitemap -/

/-- One record returned by the external data collaborator
`Skins.getAllClassicSkins()`: an md5 content identifier and a display file
name. -/
structure SkinRecord where
  md5 : String
  fileName : String
deriving DecidableEq

/-- The dynamic sitemap entry for one record (line 97):
`skin/{md5}/{fileName}`. -/
def skinUrl (s : SkinRecord) : String :=
  "skin/" ++ s.md5 ++ "/" ++ s.fileName

/-- `getSitemapUrls` (lines 95-99), with the awaited result of
`Skins.getAllClassicSkins()` passed in as `md5s`. -/
def getSitemapUrls (md5s : List SkinRecord) : List String :=
  ["/about", "/", "/upload"] ++ md5s.map skinUrl

/-! ## Upload limits and the error boundary -/

/-- The `express-fileupload` limits object (line 72). -/
structure UploadLimits where
  fileSize : Nat
deriving DecidableEq

/-- `const limits = \x7b fileSize: 50 * 1024 * 1024 \x7d` (line 72). -/
def limits : UploadLimits :=
  { fileSize := 50 * 1024 * 1024 }

/-- The JSON body produced by the terminal error handler:
`res.json` of `errorId` and `message` (line 89).  `errorId` is `res.sentry`,
which the Sentry error handler sets when it saw the error; it is absent
(`undefined`) otherwise. -/
structure ErrorResponse where
  errorId : Option String
  message : String
deriving DecidableEq

/-- The `onError` fallthrough handler (lines 87-90): sets the status code to
500 and renders the error's message together with `res.sentry`. -/
def onError (errMessage : String) (sentryId : Option String) :
    Nat × ErrorResponse :=
  (500, { errorId := sentryId, message := errMessage })

/-- A failure raised by a stage downstream of the CORS gate: an error thrown
or rejected inside route dispatch, or a rejection of the awaited
`Skins.getAllClassicSkins()` call while building the sitemap.  Either way,
Express forwards the error object to the error-handling middleware. -/
inductive DownstreamFailure
  | routeError (msg : String)
  | sitemapFetchError (msg : String)
deriving DecidableEq

/-- The `message` property of the forwarded error object. -/
def DownstreamFailure.message : DownstreamFailure → String
  | routeError m => m
  | sitemapFetchError m => m

/-- Outcome of processing one request through the pipeline. -/
inductive Outcome
  | completed
  | errored (status : Nat) (body : ErrorResponse)
deriving DecidableEq

/-- Error propagation through the assembled pipeline for one request: a CORS
denial surfaces its error to the error-handling chain; otherwise any
downstream failure does; in both cases the terminal `onError` handler
renders the response.  `sentryId` is the correlation id the Sentry error
handler attached to `res.sentry`, when present. -/
def runPipeline (sentryId : Option String) (origin : Option String)
    (failure : Option DownstreamFailure) : Outcome :=
  match corsOriginGate origin with
  | CorsDecision.deny reason =>
    let r := onError reason sentryId
    Outcome.errored r.1 r.2
  | CorsDecision.allow =>
    match failure with
    | some f =>
      let r := onError f.message sentryId
      Outcome.errored r.1 r.2
    | none => Outcome.completed

/-! ## Pipeline assembly order -/

/-- The stages `createApp` (lines 30-93) installs, in source order.  The two
Sentry stages are guarded by `if (Sentry)`, which is always true for the
statically imported module. -/
inductive Stage
  | sentryRequestHandler
  | requestContextProvider
  | eventNotifier
  | requestLogger
  | corsGate
  | corsPreflight
  | jsonFormatConfig
  | bodyParserJson
  | fileUpload
  | sitemap
  | routeDispatch
  | sentryErrorHandler
  | errorBoundary
deriving DecidableEq

/-- The order in which `createApp` registers the stages on the Express app
(lines 31-90). -/
def createAppStages : List Stage :=
  [Stage.sentryRequestHandler,
   Stage.requestContextProvider,
   Stage.eventNotifier,
   Stage.requestLogger,
   Stage.corsGate,
   Stage.corsPreflight,
   Stage.jsonFormatConfig,
   Stage.bodyParserJson,
   Stage.fileUpload,
   Stage.sitemap,
   Stage.routeDispatch,
   Stage.sentryErrorHandler,
   Stage.errorBoundary]

/-! ## Claim theorems -/

/-- Claim C1 (amended).  For every configured allow-list `R` and declared
origin `o`, the origin gate decides ALLOW if `o` is absent, ALLOW if `o` is
the empty string (the JavaScript `!origin` guard treats `""` as falsy),
ALLOW if some rule in `R` matches `o` under the unanchored regex search the
source performs, and otherwise DENY with a reason string that contains `o`
verbatim.  In particular origin `https://skins.webamp.org` is allowed, an
absent origin is allowed, and `https://evil.example` is denied with a reason
containing it verbatim. -/
theorem claim1_origin_gate_amended :
    (∀ R : List (List PatChar),
      corsOriginGateWith R none = CorsDecision.allow) ∧
    (∀ R : List (List PatChar),
      corsOriginGateWith R (some "") = CorsDecision.allow) ∧
    (∀ (R : List (List PatChar)) (o : String),
      R.any (fun p => regexTest p o) = true →
        corsOriginGateWith R (some o) = CorsDecision.allow) ∧
    (∀ (R : List (List PatChar)) (o : String), o ≠ "" →
      R.any (fun p => regexTest p o) = false →
        corsOriginGateWith R (some o) = CorsDecision.deny (denyReason o) ∧
          containsSub o (denyReason o) = true) ∧
    corsOriginGate (some "https://skins.webamp.org") = CorsDecision.allow ∧
    corsOriginGate none = CorsDecision.allow ∧
    corsOriginGate (some "https://evil.example") =
      CorsDecision.deny (denyReason "https://evil.example") ∧
    containsSub "https://evil.example" (denyReason "https://evil.example") =
      true := by
  refine ⟨fun R => rfl, fun R => rfl, ?_, ?_, by decide, rfl, by decide,
    by decide⟩
  · intro R o h
    simp [corsOriginGateWith, h]
  · intro R o hne h
    refine ⟨?_, denyReason_contains o⟩
    simp [corsOriginGateWith, h, hne]

/-- Witness for C1: concrete applications discharging both implications: the
allowed origin `http://localhost:3000` and the denied origin
`https://evil.example`, over the configured allow list. -/
theorem claim1_origin_gate_amended_witness :
    corsOriginGateWith allowList (some "http://localhost:3000") =
        CorsDecision.allow ∧
      (corsOriginGateWith allowList (some "https://evil.example") =
          CorsDecision.deny (denyReason "https://evil.example") ∧
        containsSub "https://evil.example"
            (denyReason "https://evil.example") = true) :=
  ⟨claim1_origin_gate_amended.2.2.1 allowList "http://localhost:3000"
      (by decide),
    claim1_origin_gate_amended.2.2.2.1 allowList "https://evil.example"
      (by decide) (by decide)⟩

/-- Counterexample to C1 as stated: the empty string is a declared (present)
origin that no configured rule matches, yet the gate answers ALLOW rather
than DENY, because the source's `!origin` guard is truthy for `""`. -/
theorem claim1_origin_gate_counterexample :
    corsOriginGate (some "") = CorsDecision.allow ∧
    allowList.any (fun p => regexTest p "") = false ∧
    (some "" : Option String) ≠ none := by
  decide

/-- Claim C6 (amended).  For every present origin `o`, the gate allows `o`
iff `o` is empty or at least one configured rule matches somewhere within
`o` (`RegExp.prototype.test` performs an unanchored search, not a full-string
match); consequently an origin that merely contains an allowed pattern
inside a longer string is allowed rather than denied, as the concrete origin
`https://foo.netlify.app.evil.example` shows. -/
theorem claim6_origin_gate_unanchored :
    (∀ o : String,
      corsOriginGate (some o) = CorsDecision.allow ↔
        (o = "" ∨ allowList.any (fun p => regexTest p o) = true)) ∧
    corsOriginGate (some "https://foo.netlify.app.evil.example") =
      CorsDecision.allow := by
  refine ⟨?_, by decide⟩
  intro o
  unfold corsOriginGate corsOriginGateWith
  rcases hb : (o == "" || allowList.any (fun p => regexTest p o)) with _ | _
  · simp only [Bool.or_eq_false_iff, beq_eq_false_iff_ne] at hb
    simp [hb.1, hb.2]
  · simp only [Bool.or_eq_true, beq_iff_eq] at hb
    rcases hb with hb | hb
    · simp [hb]
    · simp [hb]

/-- Counterexample to C6 as stated: the origin
`https://skins.webamp.org.evil.example` contains the allowed pattern only as
a proper substring — no configured rule matches the full origin string — yet
the gate allows it. -/
theorem claim6_origin_gate_counterexample :
    corsOriginGate (some "https://skins.webamp.org.evil.example") =
        CorsDecision.allow ∧
      allowList.all
          (fun p =>
            !(patMatchesExact p
              ("https://skins.webamp.org.evil.example").data)) = true := by
  decide

/-- Claim C2.  Every error that reaches the terminal error boundary — a CORS
denial, a route-handler error, or a sitemap fetch failure — produces HTTP
status 500 and the JSON body `(errorId, message)` where `message` is the
error's message text and `errorId` is the correlation id set by the Sentry
error handler when present, `none` otherwise; in particular throwing
`Error("boom")` in route dispatch yields a body whose message is `boom`. -/
theorem claim2_error_boundary :
    (∀ (sid : Option String) (o : Option String)
        (f : Option DownstreamFailure) (reason : String),
      corsOriginGate o = CorsDecision.deny reason →
        runPipeline sid o f =
          Outcome.errored 500 { errorId := sid, message := reason }) ∧
    (∀ (sid : Option String) (o : Option String) (f : DownstreamFailure),
      corsOriginGate o = CorsDecision.allow →
        runPipeline sid o (some f) =
          Outcome.errored 500 { errorId := sid, message := f.message }) ∧
    (∀ sid : Option String,
      runPipeline sid none (some (DownstreamFailure.routeError "boom")) =
        Outcome.errored 500 { errorId := sid, message := "boom" }) ∧
    (∀ sid : Option String,
      runPipeline sid none
          (some (DownstreamFailure.sitemapFetchError "fetch failed")) =
        Outcome.errored 500 { errorId := sid, message := "fetch failed" }) := by
  refine ⟨?_, ?_, fun sid => rfl, fun sid => rfl⟩
  · intro sid o f reason h
    simp [runPipeline, h, onError]
  · intro sid o f h
    simp [runPipeline, h, onError]

/-- Witness for C2: the denied origin `https://evil.example` with no Sentry
id yields a 500 carrying the denial reason, and a `boom` route error behind
the allowed origin `https://skins.webamp.org` with Sentry id `abc123` yields
a 500 whose body is `(some "abc123", "boom")`. -/
theorem claim2_error_boundary_witness :
    runPipeline none (some "https://evil.example") none =
        Outcome.errored 500
          { errorId := none,
            message := denyReason "https://evil.example" } ∧
      runPipeline (some "abc123") (some "https://skins.webamp.org")
          (some (DownstreamFailure.routeError "boom")) =
        Outcome.errored 500
          { errorId := some "abc123", message := "boom" } :=
  ⟨claim2_error_boundary.1 none (some "https://evil.example") none
      (denyReason "https://evil.example") (by decide),
    claim2_error_boundary.2.1 (some "abc123")
      (some "https://skins.webamp.org")
      (DownstreamFailure.routeError "boom") (by decide)⟩

/-- Claim C3.  With an event handler configured, each `req.notify(action)`
call invokes the handler exactly once (the invocation trace has length one),
with the event value unchanged and with the very context allocated for this
request by the context middleware (`req.ctx`). -/
theorem claim3_notify_with_subscriber :
    ∀ (fresh : Nat) (a : ApiAction),
      notifyCalls true (buildRequestScope fresh) a =
          [(a, (buildRequestScope fresh).ctx)] ∧
        (notifyCalls true (buildRequestScope fresh) a).length = 1 := by
  intro fresh a
  exact ⟨rfl, rfl⟩

/-- Claim C4.  With no event handler configured, `req.notify(action)` makes
no handler invocation at all, for every request scope and every domain
event; as a total function returning the empty trace it cannot fail. -/
theorem claim4_notify_without_subscriber :
    ∀ (s : RequestScope) (a : ApiAction), notifyCalls false s a = [] := by
  intro s a
  rfl

/-- Claim C5.  For every list of records returned by the data collaborator,
the sitemap URL list starts with the static entries `/about`, `/`, `/upload`
in that literal order and continues with one `skin/{md5}/{fileName}` entry
per record in the collaborator's order; in particular one record
`(abc, foo.wal)` yields exactly the four-entry list ending in
`skin/abc/foo.wal`. -/
theorem claim5_sitemap_urls :
    ∀ items : List SkinRecord,
      (getSitemapUrls items).take 3 = ["/about", "/", "/upload"] ∧
        (getSitemapUrls items).drop 3 = items.map skinUrl ∧
        (getSitemapUrls items).length = 3 + items.length ∧
        getSitemapUrls [{ md5 := "abc", fileName := "foo.wal" }] =
          ["/about", "/", "/upload", "skin/abc/foo.wal"] := by
  intro items
  refine ⟨rfl, rfl, ?_, by decide⟩
  simp [getSitemapUrls]
  omega

/-- Claim C7 (amended).  `req.log` and `req.logError` emit
`(message, metadata)` to the process-level console sink — info level for
`log`, error level for `logError` — with the message unchanged; the metadata
(full URL, route parameters, query parameters) is the snapshot taken once
when the logger middleware ran, before route dispatch, and that same
snapshot is emitted by every later call regardless of the request's metadata
at call time. -/
theorem claim7_logger_attach_snapshot :
    ∀ (m mc : RequestMeta) (msg : String),
      (attachLogger m).log msg =
          { level := LogLevel.info, message := msg, meta := m } ∧
        (attachLogger m).logError msg =
          { level := LogLevel.error, message := msg, meta := m } ∧
        loggerObservedMeta m mc msg = m := by
  intro m mc msg
  exact ⟨rfl, rfl, rfl⟩

/-- Counterexample to C7 as stated: take a request whose metadata at the
moment the logger middleware runs has empty route parameters (the middleware
is installed before route dispatch, so `req.params` is still empty) and
whose metadata at the moment a route handler calls `req.log` carries the
matched parameter `md5 = a1b2`.  The emitted metadata is the attach-time
snapshot, not the call-time metadata the claim requires. -/
theorem claim7_logger_counterexample :
    loggerObservedMeta
        { url := "/skins/a1b2", params := [], query := [] }
        { url := "/skins/a1b2", params := [("md5", "a1b2")], query := [] }
        "hello" =
        { url := "/skins/a1b2", params := [], query := [] } ∧
      loggerObservedMeta
        { url := "/skins/a1b2", params := [], query := [] }
        { url := "/skins/a1b2", params := [("md5", "a1b2")], query := [] }
        "hello" ≠
        { url := "/skins/a1b2", params := [("md5", "a1b2")], query := [] } := by
  refine ⟨rfl, ?_⟩
  decide

/-- Claim C8.  One context middleware run allocates exactly one
`UserContext` per request (`assignContexts` yields one scope per request);
within a request the notify closure and any downstream handler read the very
context the middleware stored; and the contexts of distinct requests are
distinct — stated both for an arbitrary pair of distinct request positions
and as `Nodup` of the whole context list of a run. -/
theorem claim8_request_context_identity :
    (∀ firstFresh n : Nat, (assignContexts firstFresh n).length = n) ∧
    (∀ fresh : Nat,
      (buildRequestScope fresh).notifyCtx = (buildRequestScope fresh).ctx ∧
        (buildRequestScope fresh).downstreamCtx =
          (buildRequestScope fresh).ctx) ∧
    (∀ firstFresh i j : Nat, i ≠ j →
      (buildRequestScope (firstFresh + i)).ctx ≠
        (buildRequestScope (firstFresh + j)).ctx) ∧
    (∀ firstFresh n : Nat,
      ((assignContexts firstFresh n).map RequestScope.ctx).Nodup) := by
  refine ⟨?_, fun fresh => ⟨rfl, rfl⟩, ?_, ?_⟩
  · intro firstFresh n
    simp [assignContexts]
  · intro firstFresh i j hij
    simp only [buildRequestScope]
    omega
  · intro firstFresh n
    have hmap : (assignContexts firstFresh n).map RequestScope.ctx =
        (List.range n).map (fun i => firstFresh + i) := by
      simp [assignContexts, buildRequestScope]
    rw [hmap]
    exact (List.nodup_range n).map (fun a b h => by omega)

/-- Witness for C8: requests number 0 and 1 of a run starting at allocation
number 0 observe distinct contexts. -/
theorem claim8_request_context_identity_witness :
    (buildRequestScope (0 + 0)).ctx ≠ (buildRequestScope (0 + 1)).ctx :=
  claim8_request_context_identity.2.2.1 0 0 1 (by decide)

/-- Claim C9.  `createApp` registers the stages in the fixed source order:
the context middleware precedes the notify and logger middlewares, route
dispatch precedes the Sentry error handler, which precedes the terminal
error boundary, and the error boundary is the last stage registered; since
Express runs `use`-registered stages in registration order, no request
reaches a later stage before the earlier ones ran. -/
theorem claim9_pipeline_stage_order :
    createAppStages.indexOf Stage.sentryRequestHandler <
        createAppStages.indexOf Stage.requestContextProvider ∧
      createAppStages.indexOf Stage.requestContextProvider <
        createAppStages.indexOf Stage.eventNotifier ∧
      createAppStages.indexOf Stage.eventNotifier <
        createAppStages.indexOf Stage.requestLogger ∧
      createAppStages.indexOf Stage.requestLogger <
        createAppStages.indexOf Stage.corsGate ∧
      createAppStages.indexOf Stage.corsGate <
        createAppStages.indexOf Stage.corsPreflight ∧
      createAppStages.indexOf Stage.corsPreflight <
        createAppStages.indexOf Stage.jsonFormatConfig ∧
      createAppStages.indexOf Stage.jsonFormatConfig <
        createAppStages.indexOf Stage.bodyParserJson ∧
      createAppStages.indexOf Stage.bodyParserJson <
        createAppStages.indexOf Stage.fileUpload ∧
      createAppStages.indexOf Stage.fileUpload <
        createAppStages.indexOf Stage.sitemap ∧
      createAppStages.indexOf Stage.sitemap <
        createAppStages.indexOf Stage.routeDispatch ∧
      createAppStages.indexOf Stage.routeDispatch <
        createAppStages.indexOf Stage.sentryErrorHandler ∧
      createAppStages.indexOf Stage.sentryErrorHandler <
        createAppStages.indexOf Stage.errorBoundary ∧
      createAppStages.getLast? = some Stage.errorBoundary := by
  decide

/-- Claim C10.  The build-time file-upload configuration fixes the maximum
payload size at `50 * 1024 * 1024` bytes, i.e. 52428800 (50 MiB). -/
theorem claim10_upload_limit :
    limits.fileSize = 50 * 1024 * 1024 ∧ limits.fileSize = 52428800 := by
  decide

end Webamp
